import Mathlib

/-!
Verification development for the Hubspace controller module
(`hubspace_controller.py`): a shallow embedding of its device catalog,
command execution, sync bridge, status cache and status queries, with
theorems settling the specified properties.

Python dicts are modelled as association lists with overwrite-on-insert
semantics; coroutines that may raise are modelled in `Except String`;
the HTTP layer is modelled by oracles giving each request an outcome.
-/

namespace Hubspace

/-- Association-list model of a Python dict lookup (`d.get(k)` / `d[k]`). -/
def dictGet {κ α : Type} [DecidableEq κ] (k : κ) : List (κ × α) → Option α
  | [] => none
  | e :: rest => if e.1 = k then some e.2 else dictGet k rest

/-- Membership test, modelling Python `k in d`. -/
def dictMem {κ α : Type} [DecidableEq κ] (k : κ) (l : List (κ × α)) : Bool :=
  (dictGet k l).isSome

/-- Model of Python `d[k] = v`: overwrite in place if the key exists,
append otherwise. -/
def dictInsert {κ α : Type} [DecidableEq κ] (k : κ) (v : α) : List (κ × α) → List (κ × α)
  | [] => [(k, v)]
  | e :: rest => if e.1 = k then (k, v) :: rest else e :: dictInsert k v rest

/-- Model of Python `d.pop(k, None)`: remove the binding for `k`.
(A Python dict holds at most one binding per key; removing all
occurrences from the association list is the faithful counterpart.) -/
def dictErase {κ α : Type} [DecidableEq κ] (k : κ) : List (κ × α) → List (κ × α)
  | [] => []
  | e :: rest => if e.1 = k then dictErase k rest else e :: dictErase k rest

/-- Python `str.lower()`, written so the kernel can evaluate it (the
library `String.toLower` goes through an opaque helper).  Case folding is
per character, as in CPython for the ASCII names involved here. -/
def pyLower (s : String) : String := ⟨s.data.map Char.toLower⟩

/-- Metadata stored per device in `_devices`: `{"name": ..., "type": ..., "id": ...}`. -/
structure DeviceInfo where
  name : String
  type : String
  id : String
deriving DecidableEq

/-- The two module-level catalog dicts: `_devices` (id to metadata) and
`_device_names` (lower-cased friendly name to id). -/
structure Catalog where
  devices : List (String × DeviceInfo)
  deviceNames : List (String × String)
deriving DecidableEq

/-- One discovery step: `_devices[dev.id] = {...}` followed by
`_device_names[dev.name.lower()] = dev.id`. -/
def catalogDevice (c : Catalog) (devId devName label : String) : Catalog :=
  { devices := dictInsert devId ⟨devName, label, devId⟩ c.devices,
    deviceNames := dictInsert (pyLower devName) devId c.deviceNames }

/-- Catalog produced by discovering the given `(id, name, label)` entries in order. -/
def buildCatalog (discovered : List (String × String × String)) : Catalog :=
  discovered.foldl (fun c e => catalogDevice c e.1 e.2.1 e.2.2) ⟨[], []⟩

/-- `get_device_id`: return the input if it is a known id, else look the
lower-cased input up in the name index. -/
def get_device_id (c : Catalog) (nameOrId : String) : Option String :=
  if dictMem nameOrId c.devices then some nameOrId
  else dictGet (pyLower nameOrId) c.deviceNames

/-- A JSON value sent or stored as a device state value.  `rgbWrap`
models the nested object `{"color-rgb": {"r": .., "g": .., "b": ..}}`
sent by `set_color`; `rgb` models a bare `{"r": .., "g": .., "b": ..}`
object (the parser in `get_status` accepts both shapes). -/
inductive Value where
  | s (v : String)
  | n (v : Int)
  | rgbWrap (r g b : Int)
  | rgb (r g b : Int)
deriving DecidableEq

/-- A direct-protocol state-mutation request, as built by `_api_set_state`:
a PUT scoped to a device id and a functionClass carrying one value. -/
structure Request where
  deviceId : String
  functionClass : String
  value : Value
deriving DecidableEq

/-- Outcome the HTTP layer gives one `_api_set_state` request: a response
whose status is 200/202/204-class or not (`ok true` / `ok false`),
or an exception raised by the transport. -/
inductive ApiResult where
  | ok (success : Bool)
  | exn (msg : String)
deriving DecidableEq

/-- A value of the dicts the control functions return:
`{"ok": True}` or `{"error": msg}`. -/
inductive CmdResult where
  | okTrue
  | error (msg : String)
deriving DecidableEq

/-- `_api_set_state`, relative to an HTTP oracle `api`: records the single
request it issues, and returns whether the response status was in
(200, 202, 204), raising when the transport raises. -/
def apiSetState (api : Request → ApiResult) (d fc : String) (v : Value) :
    List Request × Except String Bool :=
  let r : Request := ⟨d, fc, v⟩
  match api r with
  | .ok b => ([r], .ok b)
  | .exn m => ([r], .error m)

/-- `return {"ok": True} if ok else {"error": "API call failed"}`,
threading the request trace and a possible exception. -/
def okOf (p : List Request × Except String Bool) : List Request × Except String CmdResult :=
  match p.2 with
  | .ok true => (p.1, .ok .okTrue)
  | .ok false => (p.1, .ok (.error "API call failed"))
  | .error m => (p.1, .error m)

/-- The primary-path controller `_bridge.lights`: `get_device` returns
whether it holds the device (raising is possible), `turn_on` / `turn_off`
are its SDK mutations. -/
structure Primary where
  get_device : String → Except String Bool
  turn_on : String → Except String Unit
  turn_off : String → Except String Unit

/-- The secondary branch shared by `turn_on` and `turn_off`:
`_api_set_state(resolved, "power", onOff)` then ok/error conversion. -/
def powerFallback (api : Request → ApiResult) (d onOff : String) :
    List Request × Except String CmdResult :=
  okOf (apiSetState api d "power" (.s onOff))

/-- Body of the `_do` coroutine of `turn_on`: try the primary controller
inside `try/except`, return `{"ok": True}` if it holds the device and its
`turn_on` completes, otherwise fall back to the direct request. -/
def turn_on_do (prim : Primary) (api : Request → ApiResult) (d : String) :
    List Request × Except String CmdResult :=
  match prim.get_device d with
  | .ok true =>
      match prim.turn_on d with
      | .ok _ => ([], .ok .okTrue)
      | .error _ => powerFallback api d "on"
  | .ok false => powerFallback api d "on"
  | .error _ => powerFallback api d "on"

/-- Body of the `_do` coroutine of `turn_off`, symmetric to `turn_on_do`. -/
def turn_off_do (prim : Primary) (api : Request → ApiResult) (d : String) :
    List Request × Except String CmdResult :=
  match prim.get_device d with
  | .ok true =>
      match prim.turn_off d with
      | .ok _ => ([], .ok .okTrue)
      | .error _ => powerFallback api d "off"
  | .ok false => powerFallback api d "off"
  | .error _ => powerFallback api d "off"

/-- Body of the `_do` coroutine of `set_brightness`: brightness 0 becomes a
single power-off request; otherwise a power-on request whose return value
is discarded (but whose exception aborts), then the brightness request. -/
def set_brightness_do (api : Request → ApiResult) (d : String) (brightness : Int) :
    List Request × Except String CmdResult :=
  if brightness = 0 then
    powerFallback api d "off"
  else
    let p1 := apiSetState api d "power" (.s "on")
    match p1.2 with
    | .error m => (p1.1, .error m)
    | .ok _ =>
        let p2 := okOf (apiSetState api d "brightness" (.n brightness))
        (p1.1 ++ p2.1, p2.2)

/-- Body of the `_do` coroutine of `set_color`: unconditional power-on
(value discarded, exception aborts), then the color-rgb request. -/
def set_color_do (api : Request → ApiResult) (d : String) (r g b : Int) :
    List Request × Except String CmdResult :=
  let p1 := apiSetState api d "power" (.s "on")
  match p1.2 with
  | .error m => (p1.1, .error m)
  | .ok _ =>
      let p2 := okOf (apiSetState api d "color-rgb" (.rgbWrap r g b))
      (p1.1 ++ p2.1, p2.2)

/-- Body of the `_do` coroutine of `set_effect`. -/
def set_effect_do (api : Request → ApiResult) (d : String) (effectName : String) :
    List Request × Except String CmdResult :=
  let p1 := apiSetState api d "power" (.s "on")
  match p1.2 with
  | .error m => (p1.1, .error m)
  | .ok _ =>
      let p2 := okOf (apiSetState api d "color-sequence" (.s effectName))
      (p1.1 ++ p2.1, p2.2)

/-- Body of the `_do` coroutine of `set_color_temp`. -/
def set_color_temp_do (api : Request → ApiResult) (d : String) (kelvin : Int) :
    List Request × Except String CmdResult :=
  let p1 := apiSetState api d "power" (.s "on")
  match p1.2 with
  | .error m => (p1.1, .error m)
  | .ok _ =>
      let p2 := okOf (apiSetState api d "color-temperature" (.n kelvin))
      (p1.1 ++ p2.1, p2.2)

/-- What `future.result(timeout=...)` can observe for a submitted
coroutine: the coroutine completed with a value, the coroutine raised, or
the wait timed out (in Python a `TimeoutError` whose `str` is empty). -/
inductive WorkOutcome (α : Type) where
  | completed (v : α)
  | raised (msg : String)
  | timedOut

/-- The default per-call wait of `_run_async` (seconds). -/
def RUN_ASYNC_DEFAULT_TIMEOUT : Nat := 10

/-- `_run_async`: if the loop or the bridge is not initialized, return the
uniform not-connected error without consulting the work at all; otherwise
return the completed value, converting any exception of the wait
(including the timeout exception) into an error result via `err`.
`err` embeds `{"error": m}` into the result type of the coroutine. -/
def run_async {α : Type} (err : String → α) (loopInit bridgeInit : Bool)
    (outcome : WorkOutcome α) : α :=
  if loopInit = false || bridgeInit = false then err "Hubspace not connected"
  else
    match outcome with
    | .completed v => v
    | .raised m => err m
    | .timedOut => err ""

/-- The outcome the background loop hands back for a coroutine modelled in
`Except String`: completion or a raised exception. -/
def outcomeOf {α : Type} (r : Except String α) : WorkOutcome α :=
  match r with
  | .ok v => .completed v
  | .error m => .raised m

/-- A status dict as returned by `get_status` and friends.  Each field is
`none` when the corresponding key is absent from the Python dict. -/
structure StatusObj where
  isOn : Option Bool
  brightness : Option Int
  color : Option (Int × Int × Int)
  mode : Option String
  error : Option String
deriving DecidableEq

/-- The dict `{"error": m}` viewed as a status object: only the error key. -/
def statusErrEmbed (m : String) : StatusObj :=
  { isOn := none, brightness := none, color := none, mode := none, error := some m }

/-- The dict `{"on": False, "brightness": 0, "error": m}`. -/
def errStatusObj (m : String) : StatusObj :=
  { isOn := some false, brightness := some 0, color := none, mode := none, error := some m }

/-- One `_status_cache` entry: `{"data": ..., "ts": ...}`. -/
structure CacheEntry where
  data : StatusObj
  ts : Int
deriving DecidableEq

/-- `_CACHE_TTL` (seconds). -/
def CACHE_TTL : Int := 10

/-- Whether the module globals `_loop` and `_bridge` are set. -/
structure Conn where
  loopInit : Bool
  bridgeInit : Bool
deriving DecidableEq

/-- The mutable module state the sync wrappers touch: the catalog dicts
and the status cache. -/
structure CtrlState where
  catalog : Catalog
  cache : List (String × CacheEntry)
deriving DecidableEq

/-- The message of the resolution-failure result. -/
def unknownDevice (d : String) : String := "Unknown device: " ++ d

/-- Sync wrapper `turn_on`: resolve, on failure return the unknown-device
error; otherwise pop the status-cache entry and submit the `_do`
coroutine through `_run_async`. -/
def turn_on (st : CtrlState) (conn : Conn) (prim : Primary) (api : Request → ApiResult)
    (d : String) : CtrlState × CmdResult :=
  match get_device_id st.catalog d with
  | none => (st, .error (unknownDevice d))
  | some resolved =>
      ({ st with cache := dictErase resolved st.cache },
       run_async CmdResult.error conn.loopInit conn.bridgeInit
         (outcomeOf (turn_on_do prim api resolved).2))

/-- Sync wrapper `turn_off`. -/
def turn_off (st : CtrlState) (conn : Conn) (prim : Primary) (api : Request → ApiResult)
    (d : String) : CtrlState × CmdResult :=
  match get_device_id st.catalog d with
  | none => (st, .error (unknownDevice d))
  | some resolved =>
      ({ st with cache := dictErase resolved st.cache },
       run_async CmdResult.error conn.loopInit conn.bridgeInit
         (outcomeOf (turn_off_do prim api resolved).2))

/-- Sync wrapper `set_brightness`. -/
def set_brightness (st : CtrlState) (conn : Conn) (api : Request → ApiResult)
    (d : String) (brightness : Int) : CtrlState × CmdResult :=
  match get_device_id st.catalog d with
  | none => (st, .error (unknownDevice d))
  | some resolved =>
      ({ st with cache := dictErase resolved st.cache },
       run_async CmdResult.error conn.loopInit conn.bridgeInit
         (outcomeOf (set_brightness_do api resolved brightness).2))

/-- Sync wrapper `set_color`. -/
def set_color (st : CtrlState) (conn : Conn) (api : Request → ApiResult)
    (d : String) (r g b : Int) : CtrlState × CmdResult :=
  match get_device_id st.catalog d with
  | none => (st, .error (unknownDevice d))
  | some resolved =>
      ({ st with cache := dictErase resolved st.cache },
       run_async CmdResult.error conn.loopInit conn.bridgeInit
         (outcomeOf (set_color_do api resolved r g b).2))

/-- Sync wrapper `set_effect`. -/
def set_effect (st : CtrlState) (conn : Conn) (api : Request → ApiResult)
    (d : String) (effectName : String) : CtrlState × CmdResult :=
  match get_device_id st.catalog d with
  | none => (st, .error (unknownDevice d))
  | some resolved =>
      ({ st with cache := dictErase resolved st.cache },
       run_async CmdResult.error conn.loopInit conn.bridgeInit
         (outcomeOf (set_effect_do api resolved effectName).2))

/-- Sync wrapper `set_color_temp`. -/
def set_color_temp (st : CtrlState) (conn : Conn) (api : Request → ApiResult)
    (d : String) (kelvin : Int) : CtrlState × CmdResult :=
  match get_device_id st.catalog d with
  | none => (st, .error (unknownDevice d))
  | some resolved =>
      ({ st with cache := dictErase resolved st.cache },
       run_async CmdResult.error conn.loopInit conn.bridgeInit
         (outcomeOf (set_color_temp_do api resolved kelvin).2))

/-- The aioafero in-memory light handle used by the primary status path:
each field is `none` when the corresponding feature attribute is falsy. -/
structure LightHandle where
  onFeature : Option Bool
  dimming : Option Int
  color : Option (Int × Int × Int)
  color_mode : Option String

/-- The primary-path status dict built from an in-memory light handle:
`on` from `light.on.on if light.on else False`, `brightness` from
`light.dimming.brightness if light.dimming else 0`, `color` and `mode`
keys only when those features are present. -/
def statusOfLight (w : LightHandle) : StatusObj :=
  { isOn := some (w.onFeature.getD false),
    brightness := some (w.dimming.getD 0),
    color := w.color,
    mode := w.color_mode,
    error := none }

/-- The state vector of one device as returned by `_api_get_state`:
the list `raw["state"]["values"]` of (functionClass, value) entries. -/
structure RawDevice where
  values : List (String × Value)
deriving DecidableEq

/-- The dict comprehension
`{v.get("functionClass"): v.get("value") for v in values}`:
later entries overwrite earlier ones. -/
def funcsOf (values : List (String × Value)) : List (String × Value) :=
  values.foldl (fun m e => dictInsert e.1 e.2 m) []

/-- The snapshot `_fetch` reconstructs from a raw state vector:
`on` is whether the `power` value equals `"on"`, `brightness` defaults to
0 when absent or non-numeric, `color` is parsed from a `color-rgb` object
(nested or bare).  Numeric state values are modelled as integers. -/
def parseRaw (raw : RawDevice) : StatusObj :=
  let funcs := funcsOf raw.values
  let pOn : Bool :=
    match dictGet "power" funcs with
    | some (.s v) => v == "on"
    | _ => false
  let bright : Int :=
    match dictGet "brightness" funcs with
    | some (.n v) => v
    | _ => 0
  let col : Option (Int × Int × Int) :=
    match dictGet "color-rgb" funcs with
    | some (.rgbWrap r g b) => some (r, g, b)
    | some (.rgb r g b) => some (r, g, b)
    | _ => none
  { isOn := some pOn, brightness := some bright, color := col, mode := none, error := none }

/-- The `_fetch` coroutine of `get_status`, relative to a GET oracle
modelling `_api_get_state` (which returns `None` on a non-200 response and
raises when the transport raises): no data gives the fetch-failed status
object, data is parsed into a snapshot. -/
def fetchDo (getApi : String → Except String (Option RawDevice)) (d : String) :
    Except String StatusObj :=
  match getApi d with
  | .error m => .error m
  | .ok none => .ok (errStatusObj "API fetch failed")
  | .ok (some raw) => .ok (parseRaw raw)

/-- The fallback tail of `get_status`: run `_fetch` through `_run_async`
and cache the result under the resolved id only when it carries no
`error` key. -/
def get_status_fallback (st : CtrlState) (conn : Conn)
    (getApi : String → Except String (Option RawDevice)) (now : Int) (resolved : String) :
    CtrlState × StatusObj :=
  let result := run_async statusErrEmbed conn.loopInit conn.bridgeInit
    (outcomeOf (fetchDo getApi resolved))
  match result.error with
  | none => ({ st with cache := dictInsert resolved ⟨result, now⟩ st.cache }, result)
  | some _ => (st, result)

/-- `get_status` after resolution and a cache miss: not-connected check,
then the primary in-memory path (`lightsGet` models
`_bridge.lights.get_device` plus the attribute reads, raising folded into
`.error`), then the direct-protocol fallback.  A primary hit is cached. -/
def get_status_uncached (st : CtrlState) (conn : Conn)
    (lightsGet : String → Except String (Option LightHandle))
    (getApi : String → Except String (Option RawDevice)) (now : Int) (resolved : String) :
    CtrlState × StatusObj :=
  if conn.bridgeInit = false then
    (st, errStatusObj "Not connected")
  else
    match lightsGet resolved with
    | .ok (some w) =>
        let result := statusOfLight w
        ({ st with cache := dictInsert resolved ⟨result, now⟩ st.cache }, result)
    | .ok none => get_status_fallback st conn getApi now resolved
    | .error _ => get_status_fallback st conn getApi now resolved

/-- `get_status`: resolve, serve a cache entry younger than the TTL,
otherwise take the uncached path. -/
def get_status (st : CtrlState) (conn : Conn)
    (lightsGet : String → Except String (Option LightHandle))
    (getApi : String → Except String (Option RawDevice)) (now : Int) (d : String) :
    CtrlState × StatusObj :=
  match get_device_id st.catalog d with
  | none => (st, statusErrEmbed (unknownDevice d))
  | some resolved =>
      match dictGet resolved st.cache with
      | some entry =>
          if now - entry.ts < CACHE_TTL then (st, entry.data)
          else get_status_uncached st conn lightsGet getApi now resolved
      | none => get_status_uncached st conn lightsGet getApi now resolved

/-- `get_all_status`: iterate the catalog, keep only light-class devices,
query each one inside `try/except` (`statusOf` models the `get_status`
call, which may raise), and merge `{**dev_info, **status}`.  The two
dicts have disjoint keys, so the merged dict is modelled as the pair of
its parts. -/
def get_all_status (devs : List (String × DeviceInfo))
    (statusOf : String → Except String StatusObj) :
    List (String × DeviceInfo × StatusObj) :=
  match devs with
  | [] => []
  | (devId, info) :: rest =>
      if info.type == "light" then
        (devId, info,
          match statusOf devId with
          | .ok s => s
          | .error m => errStatusObj m) :: get_all_status rest statusOf
      else get_all_status rest statusOf

/-- Model of the external platform state store behind the raw transport,
as the interface section of the design describes it: per device, a
functionClass-to-value state vector; a `PUT .../state` request stores the
value under its functionClass, a `GET .../metadevices/id` returns the
stored vector. -/
def Platform : Type := List (String × List (String × Value))

/-- Effect of one accepted state-mutation request on the platform store. -/
def platStep (p : Platform) (r : Request) : Platform :=
  match dictGet r.deviceId p with
  | some fs => dictInsert r.deviceId (dictInsert r.functionClass r.value fs) p
  | none => p

/-- Effect of a sequence of accepted requests. -/
def applyRequests (p : Platform) (rs : List Request) : Platform :=
  rs.foldl platStep p

/-- The GET oracle a platform store induces for `_api_get_state`. -/
def getApiOf (p : Platform) : String → Except String (Option RawDevice) :=
  fun d => .ok ((dictGet d p).map RawDevice.mk)

/-- An HTTP oracle that accepts every mutation with a 200-class response. -/
def apiAccept : Request → ApiResult := fun _ => .ok true

/-- A reference store for the `get_devices` snapshot question.  Python
objects live on a heap: the top-level dicts (the live `_devices` and any
copies) map device ids to references of the per-device metadata dicts,
which are heap objects of their own. -/
structure Store where
  topDicts : List (Nat × List (String × Nat))
  infos : List (Nat × DeviceInfo)
deriving DecidableEq

/-- `get_devices`: `dict(_devices)` allocates a fresh top-level dict
object holding the same key-to-reference entries as the live one, and
returns (the reference of) that copy. -/
def get_devices (s : Store) (live fresh : Nat) : Store :=
  { s with topDicts := dictInsert fresh ((dictGet live s.topDicts).getD []) s.topDicts }

/-- A caller mutating the returned mapping itself: `result[k] = ref`. -/
def dictSetKey (s : Store) (dr : Nat) (k : String) (ir : Nat) : Store :=
  { s with topDicts :=
      match dictGet dr s.topDicts with
      | some entries => dictInsert dr (dictInsert k ir entries) s.topDicts
      | none => s.topDicts }

/-- A caller mutating the returned mapping itself: `del result[k]`. -/
def dictDelKey (s : Store) (dr : Nat) (k : String) : Store :=
  { s with topDicts :=
      match dictGet dr s.topDicts with
      | some entries => dictInsert dr (dictErase k entries) s.topDicts
      | none => s.topDicts }

/-- A caller mutating a per-device metadata object in place:
`someEntry["name"] = nm` through the reference it was handed. -/
def infoSetName (s : Store) (ir : Nat) (nm : String) : Store :=
  { s with infos :=
      match dictGet ir s.infos with
      | some info => dictInsert ir { info with name := nm } s.infos
      | none => s.infos }

/-- The content a top-level dict denotes once its references are followed:
what any reader of the live catalog observes. -/
def render (s : Store) (dr : Nat) : List (String × Option DeviceInfo) :=
  ((dictGet dr s.topDicts).getD []).map (fun e => (e.1, dictGet e.2 s.infos))

/-- A primary controller that holds every device and whose SDK calls all
succeed. -/
def primHealthy : Primary :=
  ⟨fun _ => .ok true, fun _ => .ok (), fun _ => .ok ()⟩

/-- An HTTP oracle whose power mutations raise in the transport and whose
other mutations succeed. -/
def apiPowerRaises : Request → ApiResult :=
  fun r => if r.functionClass = "power" then .exn "boom" else .ok true

/-- An HTTP oracle whose power mutations return a non-success response and
whose other mutations succeed. -/
def apiPowerRejects : Request → ApiResult :=
  fun r => if r.functionClass = "power" then .ok false else .ok true

/-- A one-light catalog for concrete evaluations. -/
def catOne : Catalog := buildCatalog [("d1", "L", "light")]

/-- Controller state holding `catOne` and an empty status cache. -/
def stOne : CtrlState := { catalog := catOne, cache := [] }

/-- Both module globals initialized. -/
def connUp : Conn := ⟨true, true⟩

/-- A primary status path that does not hold any device. -/
def lightsNone : String → Except String (Option LightHandle) := fun _ => .ok none

/-- A GET oracle whose transport raises. -/
def getApiRaises : String → Except String (Option RawDevice) := fun _ => .error "boom"

/-- A GET oracle answering every request with a non-200 response. -/
def getApiNoData : String → Except String (Option RawDevice) := fun _ => .ok none

/-- A platform store holding one device that is on at brightness 50. -/
def platOn50 : Platform := [("d1", [("power", .s "on"), ("brightness", .n 50)])]

/-- The catalog of the resolution counterexample: a second device whose
display name lower-cases to the first device's name. -/
def catClash : Catalog := buildCatalog [("id1", "Lamp", "light"), ("id2", "lamp", "light")]

/-- The catalog of the precedence witness: the id of the first device is
also the display name of the second. -/
def catIdName : Catalog := buildCatalog [("x", "Lamp", "light"), ("y", "x", "light")]

/-- The store of the snapshot counterexample: live dict at reference 0
with one device whose metadata dict sits at reference 10. -/
def storeOne : Store :=
  { topDicts := [(0, [("id1", 10)])], infos := [(10, ⟨"Lamp", "light", "id1"⟩)] }

/-- A primary controller that holds no device and otherwise succeeds. -/
def primAbsent : Primary :=
  ⟨fun _ => .ok false, fun _ => .ok (), fun _ => .ok ()⟩

/-- A two-light catalog dict for the aggregate-status witness. -/
def devsTwo : List (String × DeviceInfo) :=
  [("a", ⟨"A", "light", "a"⟩), ("b", ⟨"B", "light", "b"⟩)]

/-- A status oracle that raises for device `a` and answers for the rest. -/
def statusBoomA : String → Except String StatusObj :=
  fun x => if x = "a" then .error "boom" else .ok (statusOfLight ⟨some true, some 7, none, none⟩)

/-!  Lemmas about the dict model. -/

theorem dictGet_dictErase_self {κ α : Type} [DecidableEq κ] (k : κ) (l : List (κ × α)) :
    dictGet k (dictErase k l) = none := by
  induction l with
  | nil => rfl
  | cons e rest ih =>
      by_cases h : e.1 = k
      · simpa [dictErase, h] using ih
      · simpa [dictErase, dictGet, h] using ih

theorem dictGet_dictInsert_self {κ α : Type} [DecidableEq κ] (k : κ) (v : α)
    (l : List (κ × α)) : dictGet k (dictInsert k v l) = some v := by
  induction l with
  | nil => simp [dictInsert, dictGet]
  | cons e rest ih =>
      by_cases h : e.1 = k
      · simp [dictInsert, dictGet, h]
      · simpa [dictInsert, dictGet, h] using ih

theorem dictGet_dictInsert_ne {κ α : Type} [DecidableEq κ] {k k2 : κ} (v : α)
    (l : List (κ × α)) (h : k2 ≠ k) : dictGet k (dictInsert k2 v l) = dictGet k l := by
  induction l with
  | nil => simp [dictInsert, dictGet, h]
  | cons e rest ih =>
      by_cases h2 : e.1 = k2
      · simp [dictInsert, dictGet, h2, h]
      · by_cases h3 : e.1 = k
        · have h4 : ¬k = k2 := h3 ▸ h2
          simp [dictInsert, dictGet, h2, h3, h4]
        · simpa [dictInsert, dictGet, h2, h3] using ih

theorem dictGet_eq_none_of_not_mem {κ α : Type} [DecidableEq κ] {k : κ}
    {l : List (κ × α)} (h : k ∉ l.map Prod.fst) : dictGet k l = none := by
  induction l with
  | nil => rfl
  | cons e rest ih =>
      simp only [List.map_cons, List.mem_cons] at h
      push_neg at h
      have h1 : e.1 ≠ k := fun hh => h.1 hh.symm
      simp [dictGet, h1, ih h.2]

theorem mem_of_dictGet_some {κ α : Type} [DecidableEq κ] {k : κ} {l : List (κ × α)}
    {v : α} (h : dictGet k l = some v) : k ∈ l.map Prod.fst := by
  induction l with
  | nil => simp [dictGet] at h
  | cons e rest ih =>
      by_cases h1 : e.1 = k
      · simp [h1]
      · simp only [dictGet, h1, if_false] at h
        simp [ih h]

theorem dictGet_append {κ α : Type} [DecidableEq κ] (k : κ) (l1 l2 : List (κ × α)) :
    dictGet k (l1 ++ l2) =
      match dictGet k l1 with
      | some v => some v
      | none => dictGet k l2 := by
  induction l1 with
  | nil => simp [dictGet]
  | cons e rest ih =>
      by_cases h : e.1 = k
      · simp [dictGet, h]
      · simpa [dictGet, h] using ih

theorem mem_keys_dictInsert {κ α : Type} [DecidableEq κ] {x k : κ} (v : α)
    (l : List (κ × α)) :
    x ∈ (dictInsert k v l).map Prod.fst ↔ x = k ∨ x ∈ l.map Prod.fst := by
  induction l with
  | nil => simp [dictInsert]
  | cons e rest ih =>
      by_cases h : e.1 = k
      · subst h
        simp [dictInsert]
      · simp only [dictInsert, h, if_false, List.map_cons, List.mem_cons, ih]
        tauto

theorem nodup_keys_dictInsert {κ α : Type} [DecidableEq κ] (k : κ) (v : α)
    {l : List (κ × α)} (h : (l.map Prod.fst).Nodup) :
    ((dictInsert k v l).map Prod.fst).Nodup := by
  induction l with
  | nil => simp [dictInsert]
  | cons e rest ih =>
      simp only [List.map_cons, List.nodup_cons] at h
      by_cases h2 : e.1 = k
      · simp only [dictInsert]
        rw [if_pos h2]
        simp only [List.map_cons]
        exact List.nodup_cons.2 ⟨h2 ▸ h.1, h.2⟩
      · simp only [dictInsert, h2, if_false, List.map_cons]
        refine List.nodup_cons.2 ⟨?_, ih h.2⟩
        rw [mem_keys_dictInsert]
        push_neg
        exact ⟨h2, h.1⟩

theorem dictGet_reverse_nodup {κ α : Type} [DecidableEq κ] (k : κ) {l : List (κ × α)}
    (h : (l.map Prod.fst).Nodup) : dictGet k l.reverse = dictGet k l := by
  induction l with
  | nil => rfl
  | cons e rest ih =>
      simp only [List.map_cons, List.nodup_cons] at h
      rw [List.reverse_cons, dictGet_append]
      by_cases h2 : e.1 = k
      · have hrev : dictGet k rest.reverse = none := by
          apply dictGet_eq_none_of_not_mem
          rw [List.map_reverse, List.mem_reverse]
          exact h2 ▸ h.1
        simp [hrev, dictGet, h2]
      · rw [ih h.2]
        cases hr : dictGet k rest with
        | some v => simp [dictGet, h2, hr]
        | none => simp [dictGet, h2, hr]

theorem foldl_dictInsert_get {κ α : Type} [DecidableEq κ] (k : κ) (l acc : List (κ × α)) :
    dictGet k (l.foldl (fun m e => dictInsert e.1 e.2 m) acc) =
      match dictGet k l.reverse with
      | some v => some v
      | none => dictGet k acc := by
  induction l generalizing acc with
  | nil => simp [dictGet]
  | cons e rest ih =>
      rw [List.foldl_cons, ih, List.reverse_cons, dictGet_append]
      cases hr : dictGet k rest.reverse with
      | some v => simp
      | none =>
          by_cases h2 : e.1 = k
          · subst h2
            simp [dictGet, dictGet_dictInsert_self]
          · simp [dictGet, h2, dictGet_dictInsert_ne _ _ h2]

theorem funcsOf_get_nodup (k : String) {l : List (String × Value)}
    (h : (l.map Prod.fst).Nodup) : dictGet k (funcsOf l) = dictGet k l := by
  rw [funcsOf, foldl_dictInsert_get, dictGet_reverse_nodup k h]
  cases dictGet k l <;> simp [dictGet]

/-!  Lemmas about the request traces of the command coroutines. -/

theorem apiSetState_fst (api : Request → ApiResult) (d fc : String) (v : Value) :
    (apiSetState api d fc v).1 = [⟨d, fc, v⟩] := by
  unfold apiSetState
  cases h : api ⟨d, fc, v⟩ <;> simp [h]

theorem okOf_fst (p : List Request × Except String Bool) : (okOf p).1 = p.1 := by
  rcases p with ⟨t, r⟩
  rcases r with m | b
  · rfl
  · cases b <;> rfl

theorem powerFallback_trace (api : Request → ApiResult) (d onOff : String) :
    (powerFallback api d onOff).1 = [⟨d, "power", .s onOff⟩] := by
  unfold powerFallback
  rw [okOf_fst, apiSetState_fst]

theorem set_brightness_do_head (api : Request → ApiResult) (d : String) (n : Int) :
    (set_brightness_do api d n).1.head? =
      some ⟨d, "power", .s (if n = 0 then "off" else "on")⟩ := by
  unfold set_brightness_do
  by_cases hn : n = 0
  · simp [hn, powerFallback_trace]
  · simp only [if_neg hn]
    cases h : api ⟨d, "power", Value.s "on"⟩ with
    | ok b => simp [apiSetState, h, okOf_fst, apiSetState_fst]
    | exn m => simp [apiSetState, h]

theorem set_color_do_head (api : Request → ApiResult) (d : String) (r g b : Int) :
    (set_color_do api d r g b).1.head? = some ⟨d, "power", .s "on"⟩ := by
  unfold set_color_do
  cases h : api ⟨d, "power", Value.s "on"⟩ with
  | ok b2 => simp [apiSetState, h, okOf_fst, apiSetState_fst]
  | exn m => simp [apiSetState, h]

theorem set_effect_do_head (api : Request → ApiResult) (d eff : String) :
    (set_effect_do api d eff).1.head? = some ⟨d, "power", .s "on"⟩ := by
  unfold set_effect_do
  cases h : api ⟨d, "power", Value.s "on"⟩ with
  | ok b => simp [apiSetState, h, okOf_fst, apiSetState_fst]
  | exn m => simp [apiSetState, h]

theorem set_color_temp_do_head (api : Request → ApiResult) (d : String) (kelvin : Int) :
    (set_color_temp_do api d kelvin).1.head? = some ⟨d, "power", .s "on"⟩ := by
  unfold set_color_temp_do
  cases h : api ⟨d, "power", Value.s "on"⟩ with
  | ok b => simp [apiSetState, h, okOf_fst, apiSetState_fst]
  | exn m => simp [apiSetState, h]

/-!  Claim theorems. -/

/-- C1 (amended): power on and off follow the two-tier policy: when the
primary controller holds the device and its SDK call completes, no
direct-protocol request is issued; when it does not hold the device, the
single direct power mutation is issued.  The four value operations
(brightness, color, effect, color temperature) never consult the primary
controller: each always issues direct-protocol mutations, beginning with
a power request, even when the primary controller holds the device. -/
theorem two_tier_policy (prim prim2 : Primary) (api : Request → ApiResult)
    (d eff : String) (n r g b kelvin : Int)
    (hheld : prim.get_device d = .ok true)
    (hon : prim.turn_on d = .ok ())
    (hoff : prim.turn_off d = .ok ())
    (habs : prim2.get_device d = .ok false) :
    (turn_on_do prim api d).1 = [] ∧ (turn_on_do prim api d).2 = .ok .okTrue ∧
    (turn_off_do prim api d).1 = [] ∧ (turn_off_do prim api d).2 = .ok .okTrue ∧
    (turn_on_do prim2 api d).1 = [⟨d, "power", .s "on"⟩] ∧
    (turn_off_do prim2 api d).1 = [⟨d, "power", .s "off"⟩] ∧
    (set_brightness_do api d n).1.head? =
      some ⟨d, "power", .s (if n = 0 then "off" else "on")⟩ ∧
    (set_color_do api d r g b).1.head? = some ⟨d, "power", .s "on"⟩ ∧
    (set_effect_do api d eff).1.head? = some ⟨d, "power", .s "on"⟩ ∧
    (set_color_temp_do api d kelvin).1.head? = some ⟨d, "power", .s "on"⟩ := by
  refine ⟨?_, ?_, ?_, ?_, ?_, ?_, set_brightness_do_head api d n,
    set_color_do_head api d r g b, set_effect_do_head api d eff,
    set_color_temp_do_head api d kelvin⟩ <;>
    simp [turn_on_do, turn_off_do, hheld, hon, hoff, habs, powerFallback_trace]

theorem two_tier_policy_witness :
    (turn_on_do primHealthy apiAccept "d2").1 = [] ∧
    (turn_on_do primAbsent apiAccept "d2").1 = [⟨"d2", "power", .s "on"⟩] ∧
    (set_effect_do apiAccept "d2" "e").1.head? = some ⟨"d2", "power", .s "on"⟩ := by
  have h := two_tier_policy primHealthy primAbsent apiAccept "d2" "e" 5 1 2 3 4000
    rfl rfl rfl rfl
  exact ⟨h.1, h.2.2.2.2.1, h.2.2.2.2.2.2.2.2.1⟩

/-- C1 counterexample: with a healthy primary controller that holds the
device, `turn_on` issues no direct request, yet `set_brightness` and
`set_color` still issue their direct state mutations: the value
operations send the secondary request although no primary-path
exception, absence, or unusable result occurred. -/
theorem two_tier_policy_cex :
    (turn_on_do primHealthy apiAccept "d1").1 = [] ∧
    (set_brightness_do apiAccept "d1" 50).1 =
      [⟨"d1", "power", .s "on"⟩, ⟨"d1", "brightness", .n 50⟩] ∧
    (set_color_do apiAccept "d1" 1 2 3).1 =
      [⟨"d1", "power", .s "on"⟩, ⟨"d1", "color-rgb", .rgbWrap 1 2 3⟩] := by
  decide

/-- C2 (amended): for N different from 0 the power-on request is issued
first and the brightness request is attempted whenever the power-on call
completes with a response, successful or not; but a power-on transport
exception aborts the coroutine before the brightness request (see the
counterexample). -/
theorem brightness_after_power_on (api : Request → ApiResult) (d : String) (n : Int)
    (b : Bool) (hn : n ≠ 0) (hb : api ⟨d, "power", .s "on"⟩ = .ok b) :
    (set_brightness_do api d n).1 =
      [⟨d, "power", .s "on"⟩, ⟨d, "brightness", .n n⟩] := by
  unfold set_brightness_do
  simp only [if_neg hn]
  cases h2 : api ⟨d, "brightness", Value.n n⟩ with
  | ok b2 => cases b2 <;> simp [apiSetState, okOf, hb, h2]
  | exn m => simp [apiSetState, okOf, hb, h2]

theorem brightness_after_power_on_witness :
    apiPowerRejects ⟨"d1", "power", .s "on"⟩ = .ok false ∧
    (set_brightness_do apiPowerRejects "d1" 50).1 =
      [⟨"d1", "power", .s "on"⟩, ⟨"d1", "brightness", .n 50⟩] :=
  ⟨by decide,
   brightness_after_power_on apiPowerRejects "d1" 50 false (by decide) (by decide)⟩

/-- C2 counterexample: when the power-on transport raises, the coroutine
aborts: the trace holds only the power-on attempt, no brightness request
is made, and the call reports the exception. -/
theorem brightness_after_power_on_cex :
    (set_brightness_do apiPowerRaises "d1" 50).1 = [⟨"d1", "power", .s "on"⟩] ∧
    (set_brightness_do apiPowerRaises "d1" 50).2 = .error "boom" :=
  ⟨rfl, rfl⟩

/-- C3 (confirmed): every mutating wrapper pops the status-cache entry of
the resolved device before submitting the mutation, so after the call the
cache holds no entry for it, whatever the mutation outcome. -/
theorem mutation_invalidates_cache (st : CtrlState) (conn : Conn) (prim : Primary)
    (api : Request → ApiResult) (d resolved eff : String)
    (brightness r g b kelvin : Int)
    (h : get_device_id st.catalog d = some resolved) :
    dictGet resolved (turn_on st conn prim api d).1.cache = none ∧
    dictGet resolved (turn_off st conn prim api d).1.cache = none ∧
    dictGet resolved (set_brightness st conn api d brightness).1.cache = none ∧
    dictGet resolved (set_color st conn api d r g b).1.cache = none ∧
    dictGet resolved (set_effect st conn api d eff).1.cache = none ∧
    dictGet resolved (set_color_temp st conn api d kelvin).1.cache = none := by
  unfold turn_on turn_off set_brightness set_color set_effect set_color_temp
  rw [h]
  simp [dictGet_dictErase_self]

theorem mutation_invalidates_cache_witness :
    get_device_id stOne.catalog "d1" = some "d1" ∧
    dictGet "d1" (turn_on stOne connUp primHealthy apiAccept "d1").1.cache = none :=
  ⟨by decide,
   (mutation_invalidates_cache stOne connUp primHealthy apiAccept "d1" "d1" "e"
     50 1 2 3 4000 (by decide)).1⟩

/-- C4 (amended): `get_device_id` returns a known id unchanged; an input
that is not a known id is lowered and looked up in the name index; an
input that is neither resolves to nothing.  The catalog-pair equation
`resolve(name.lower()) = resolve(id) = id` holds for a pair whose lowered
name the index maps to that id and is not itself a known id; it fails
when a later device takes the same lowered name (see the
counterexample). -/
theorem get_device_id_resolution (c : Catalog) (ln devId s : String)
    (hlow : pyLower ln = ln)
    (hname : dictGet ln c.deviceNames = some devId)
    (hnotid : dictMem ln c.devices = false)
    (hid : dictMem devId c.devices = true)
    (hs1 : dictMem s c.devices = false)
    (hs2 : dictGet (pyLower s) c.deviceNames = none) :
    get_device_id c ln = some devId ∧
    get_device_id c devId = some devId ∧
    get_device_id c s = none := by
  unfold get_device_id
  rw [hlow]
  simp [hnotid, hname, hid, hs1, hs2]

theorem get_device_id_resolution_witness :
    dictGet "l" catOne.deviceNames = some "d1" ∧
    get_device_id catOne "l" = some "d1" ∧
    get_device_id catOne "d1" = some "d1" ∧
    get_device_id catOne "zz" = none := by
  have h := get_device_id_resolution catOne "l" "d1" "zz" (by decide) (by decide)
    (by decide) (by decide) (by decide) (by decide)
  exact ⟨by decide, h.1, h.2.1, h.2.2⟩

/-- C4 counterexample: in a catalog listing ("id1", "Lamp") and then
("id2", "lamp"), the display names collide after lowering and the later
write wins, so the catalog pair ("Lamp", "id1") resolves by name to
"id2", not to "id1". -/
theorem get_device_id_resolution_cex :
    dictGet "id1" catClash.devices = some ⟨"Lamp", "light", "id1"⟩ ∧
    get_device_id catClash (pyLower "Lamp") = some "id2" ∧
    get_device_id catClash "id1" = some "id1" := by
  decide

/-- C10 (confirmed): the known-id check of `get_device_id` precedes the
name-index lookup: any string that is a known device id resolves to
itself, regardless of what the name index maps it to. -/
theorem get_device_id_id_precedence (c : Catalog) (s : String)
    (h : dictMem s c.devices = true) : get_device_id c s = some s := by
  unfold get_device_id
  simp [h]

theorem get_device_id_id_precedence_witness :
    dictMem "x" catIdName.devices = true ∧
    dictGet "x" catIdName.deviceNames = some "y" ∧
    get_device_id catIdName "x" = some "x" :=
  ⟨by decide, by decide, get_device_id_id_precedence catIdName "x" (by decide)⟩

/-- C5 (confirmed): `_run_async` returns the uniform not-connected error
without consulting the submitted work whenever the loop or the bridge is
missing; otherwise a completed value is handed back unchanged, and a
raised exception or the timeout exception of the bounded wait (whose
default bound is 10 seconds) becomes an error result, so every outcome
of a call maps to a returned value rather than a propagated exception. -/
theorem run_async_contract (l b : Bool) (o : WorkOutcome CmdResult) :
    (l = false ∨ b = false →
      run_async CmdResult.error l b o = .error "Hubspace not connected") ∧
    (∀ v, l = true → b = true → o = .completed v →
      run_async CmdResult.error l b o = v) ∧
    (∀ m, l = true → b = true → o = .raised m →
      run_async CmdResult.error l b o = .error m) ∧
    (l = true → b = true → o = .timedOut →
      run_async CmdResult.error l b o = .error "") ∧
    RUN_ASYNC_DEFAULT_TIMEOUT = 10 := by
  refine ⟨?_, ?_, ?_, ?_, rfl⟩
  · rintro (h | h) <;> subst h <;> simp [run_async]
  · intro v h1 h2 h3
    subst h1; subst h2; subst h3
    simp [run_async]
  · intro m h1 h2 h3
    subst h1; subst h2; subst h3
    simp [run_async]
  · intro h1 h2 h3
    subst h1; subst h2; subst h3
    simp [run_async]

theorem run_async_contract_witness :
    run_async CmdResult.error false true (WorkOutcome.completed .okTrue) =
      .error "Hubspace not connected" ∧
    run_async CmdResult.error true true (WorkOutcome.raised "x") = .error "x" ∧
    run_async CmdResult.error true true WorkOutcome.timedOut = .error "" :=
  ⟨(run_async_contract false true (WorkOutcome.completed .okTrue)).1 (Or.inl rfl),
   (run_async_contract true true (WorkOutcome.raised "x")).2.2.1 "x" rfl rfl rfl,
   (run_async_contract true true WorkOutcome.timedOut).2.2.2.1 rfl rfl rfl⟩

theorem parseRaw_error (raw : RawDevice) : (parseRaw raw).error = none := rfl

/-- C6 (amended): on the fallback path of `get_status`, a fetch whose GET
yields no data returns the object with on=false, brightness=0 and the
fetch-failed error, and nothing is cached; a fetch whose transport raises
returns a dict holding only the error message, without on or brightness
keys, and nothing is cached; a successful fetch returns the parsed
snapshot and stores it in the cache. -/
theorem status_fallback_cache (st : CtrlState)
    (lightsGet : String → Except String (Option LightHandle))
    (getApi : String → Except String (Option RawDevice)) (now : Int)
    (d resolved : String)
    (hres : get_device_id st.catalog d = some resolved)
    (hmiss : dictGet resolved st.cache = none)
    (hprim : lightsGet resolved = .ok none) :
    (getApi resolved = .ok none →
      (get_status st connUp lightsGet getApi now d).2 = errStatusObj "API fetch failed" ∧
      (get_status st connUp lightsGet getApi now d).1 = st) ∧
    (∀ m, getApi resolved = .error m →
      (get_status st connUp lightsGet getApi now d).2 = statusErrEmbed m ∧
      (get_status st connUp lightsGet getApi now d).1 = st) ∧
    (∀ raw, getApi resolved = .ok (some raw) →
      (get_status st connUp lightsGet getApi now d).2 = parseRaw raw ∧
      dictGet resolved (get_status st connUp lightsGet getApi now d).1.cache =
        some ⟨parseRaw raw, now⟩) := by
  refine ⟨?_, ?_, ?_⟩
  · intro hget
    simp [get_status, get_status_uncached, get_status_fallback, hres, hmiss, hprim,
      hget, fetchDo, outcomeOf, run_async, connUp, errStatusObj]
  · intro m hget
    simp [get_status, get_status_uncached, get_status_fallback, hres, hmiss, hprim,
      hget, fetchDo, outcomeOf, run_async, connUp, statusErrEmbed]
  · intro raw hget
    simp [get_status, get_status_uncached, get_status_fallback, hres, hmiss, hprim,
      hget, fetchDo, outcomeOf, run_async, connUp, parseRaw_error,
      dictGet_dictInsert_self]

theorem status_fallback_cache_witness :
    (get_status stOne connUp lightsNone getApiNoData 0 "d1").2 =
      errStatusObj "API fetch failed" ∧
    (get_status stOne connUp lightsNone getApiNoData 0 "d1").1 = stOne := by
  have h := status_fallback_cache stOne lightsNone getApiNoData 0 "d1" "d1"
    (by decide) rfl rfl
  exact h.1 rfl

/-- C6 counterexample: when the fallback fetch raises, `get_status`
returns a dict holding only the error message: the on and brightness
keys are absent rather than set to false and 0; nothing is cached. -/
theorem status_fallback_cache_cex :
    (get_status stOne connUp lightsNone getApiRaises 0 "d1").2 = statusErrEmbed "boom" ∧
    (get_status stOne connUp lightsNone getApiRaises 0 "d1").2.isOn = none ∧
    (get_status stOne connUp lightsNone getApiRaises 0 "d1").2.brightness = none ∧
    (get_status stOne connUp lightsNone getApiRaises 0 "d1").1.cache = [] := by
  decide

theorem get_all_status_entry (devs : List (String × DeviceInfo))
    (f : String → Except String StatusObj) (x : String) (info : DeviceInfo)
    (hmem : dictGet x devs = some info) (hlight : info.type = "light") :
    dictGet x (get_all_status devs f) =
      some (info, match f x with | .ok s2 => s2 | .error m => errStatusObj m) := by
  induction devs with
  | nil => simp [dictGet] at hmem
  | cons e rest ih =>
      rcases e with ⟨k, i⟩
      by_cases h : k = x
      · subst h
        rw [dictGet, if_pos rfl] at hmem
        injection hmem with hmem
        subst hmem
        have hlight2 : i.type = "light" := hlight
        simp [get_all_status, hlight2, dictGet]
      · rw [dictGet, if_neg h] at hmem
        rw [get_all_status]
        by_cases hl : (i.type == "light") = true
        · rw [if_pos hl, dictGet, if_neg h]
          exact ih hmem
        · rw [if_neg hl]
          exact ih hmem

theorem get_all_status_domain (devs : List (String × DeviceInfo))
    (f : String → Except String StatusObj) (x : String) (p : DeviceInfo × StatusObj)
    (hnodup : (devs.map Prod.fst).Nodup)
    (h : dictGet x (get_all_status devs f) = some p) :
    ∃ info, dictGet x devs = some info ∧ info.type = "light" ∧ p.1 = info := by
  induction devs with
  | nil => simp [get_all_status, dictGet] at h
  | cons e rest ih =>
      rcases e with ⟨k, i⟩
      simp only [List.map_cons, List.nodup_cons] at hnodup
      rw [get_all_status] at h
      by_cases hl : (i.type == "light") = true
      · rw [if_pos hl] at h
        by_cases hk : k = x
        · subst hk
          rw [dictGet, if_pos rfl] at h
          injection h with h
          refine ⟨i, by rw [dictGet, if_pos rfl], beq_iff_eq.1 hl, ?_⟩
          rw [← h]
        · rw [dictGet, if_neg hk] at h
          obtain ⟨j, hj1, hj2, hj3⟩ := ih hnodup.2 h
          exact ⟨j, by rw [dictGet, if_neg hk]; exact hj1, hj2, hj3⟩
      · rw [if_neg hl] at h
        by_cases hk : k = x
        · subst hk
          obtain ⟨j, hj1, hj2, hj3⟩ := ih hnodup.2 h
          exact absurd (mem_of_dictGet_some hj1) hnodup.1
        · obtain ⟨j, hj1, hj2, hj3⟩ := ih hnodup.2 h
          exact ⟨j, by rw [dictGet, if_neg hk]; exact hj1, hj2, hj3⟩

/-- C7 (confirmed): `get_all_status` covers exactly the light-class
devices of the catalog: a device whose status query raises contributes
the error-status object (on=false, brightness=0, the message) merged
with its metadata, every other light device still contributes its entry,
and every entry belongs to a light device and carries its metadata. -/
theorem status_all_isolation (devs : List (String × DeviceInfo))
    (f : String → Except String StatusObj) (x : String) (info : DeviceInfo) (m : String)
    (hnodup : (devs.map Prod.fst).Nodup)
    (hmem : dictGet x devs = some info) (hlight : info.type = "light")
    (hthrow : f x = .error m) :
    dictGet x (get_all_status devs f) = some (info, errStatusObj m) ∧
    (∀ y j, dictGet y devs = some j → j.type = "light" →
      ∃ s2, dictGet y (get_all_status devs f) = some (j, s2)) ∧
    (∀ y p, dictGet y (get_all_status devs f) = some p →
      ∃ j, dictGet y devs = some j ∧ j.type = "light" ∧ p.1 = j) := by
  refine ⟨?_, ?_, ?_⟩
  · rw [get_all_status_entry devs f x info hmem hlight, hthrow]
  · intro y j hy hj
    exact ⟨_, get_all_status_entry devs f y j hy hj⟩
  · intro y p hp
    exact get_all_status_domain devs f y p hnodup hp

theorem status_all_isolation_witness :
    dictGet "a" (get_all_status devsTwo statusBoomA) =
      some (⟨"A", "light", "a"⟩, errStatusObj "boom") ∧
    (∃ s2, dictGet "b" (get_all_status devsTwo statusBoomA) =
      some (⟨"B", "light", "b"⟩, s2)) := by
  have h := status_all_isolation devsTwo statusBoomA "a" ⟨"A", "light", "a"⟩ "boom"
    (by decide) rfl rfl rfl
  exact ⟨h.1, h.2.1 "b" ⟨"B", "light", "b"⟩ rfl rfl⟩

theorem set_brightness_do_zero_trace (api : Request → ApiResult) (d : String) :
    (set_brightness_do api d 0).1 = [⟨d, "power", .s "off"⟩] := by
  unfold set_brightness_do
  simp [powerFallback_trace]

/-- C8 (amended): brightness 0 issues exactly one direct power-off
mutation and no brightness mutation, the same request trace as the
direct-path power-off; once the platform stores that mutation, a
subsequent direct status read shows on=false, while the stored
brightness functionClass is untouched, so the read reports the last
stored brightness value, not necessarily 0 (see the counterexample). -/
theorem brightness_zero_power_off (api : Request → ApiResult) (p : Platform)
    (d : String) (fs : List (String × Value))
    (hdev : dictGet d p = some fs) (hnodup : (fs.map Prod.fst).Nodup) :
    (set_brightness_do api d 0).1 = [⟨d, "power", .s "off"⟩] ∧
    (set_brightness_do api d 0).1 = (turn_off_do primAbsent api d).1 ∧
    dictGet d (applyRequests p (set_brightness_do api d 0).1) =
      some (dictInsert "power" (.s "off") fs) ∧
    (parseRaw ⟨dictInsert "power" (.s "off") fs⟩).isOn = some false ∧
    (parseRaw ⟨dictInsert "power" (.s "off") fs⟩).brightness =
      (parseRaw ⟨fs⟩).brightness := by
  have hnodup2 : ((dictInsert "power" (Value.s "off") fs).map Prod.fst).Nodup :=
    nodup_keys_dictInsert _ _ hnodup
  have htr := set_brightness_do_zero_trace api d
  refine ⟨htr, ?_, ?_, ?_, ?_⟩
  · rw [htr]
    simp [turn_off_do, primAbsent, powerFallback_trace]
  · rw [htr]
    simp only [applyRequests, List.foldl_cons, List.foldl_nil, platStep, hdev]
    exact dictGet_dictInsert_self _ _ _
  · simp only [parseRaw, funcsOf_get_nodup _ hnodup2, dictGet_dictInsert_self]
    rfl
  · simp only [parseRaw, funcsOf_get_nodup _ hnodup2, funcsOf_get_nodup _ hnodup,
      dictGet_dictInsert_ne _ _ (by decide : "power" ≠ "brightness")]

theorem brightness_zero_power_off_witness :
    (set_brightness_do apiAccept "d1" 0).1 = [⟨"d1", "power", .s "off"⟩] ∧
    (parseRaw ⟨dictInsert "power" (.s "off")
      [("power", Value.s "on"), ("brightness", Value.n 50)]⟩).isOn = some false := by
  have h := brightness_zero_power_off apiAccept platOn50 "d1"
    [("power", Value.s "on"), ("brightness", Value.n 50)] rfl (by decide)
  exact ⟨h.1, h.2.2.2.1⟩

/-- C8 counterexample: a device stored on at brightness 50 receives
`set_brightness(d, 0)`: exactly the power-off request is issued, and the
subsequent status read through the direct fetch shows on=false but
brightness 50, not 0 — powering off does not zero the stored brightness. -/
theorem brightness_zero_power_off_cex :
    (set_brightness_do apiAccept "d1" 0).1 = [⟨"d1", "power", .s "off"⟩] ∧
    (get_status stOne connUp lightsNone
      (getApiOf (applyRequests platOn50 (set_brightness_do apiAccept "d1" 0).1))
      0 "d1").2.isOn = some false ∧
    (get_status stOne connUp lightsNone
      (getApiOf (applyRequests platOn50 (set_brightness_do apiAccept "d1" 0).1))
      0 "d1").2.brightness = some 50 := by
  decide

/-- C9 (amended): `get_devices` returns a shallow snapshot copy: the
fresh top-level mapping holds the same entries as the live one, and
allocating it, rebinding a key on it, or deleting a key from it leaves
the live catalog unchanged; the per-device metadata objects, however,
are shared by reference, so mutating one through the returned mapping is
visible in the live catalog (see the counterexample). -/
theorem get_devices_snapshot (s : Store) (live fresh : Nat) (k : String) (ir : Nat)
    (hfresh : fresh ≠ live) :
    (dictGet fresh (get_devices s live fresh).topDicts).getD [] =
      (dictGet live s.topDicts).getD [] ∧
    render (get_devices s live fresh) live = render s live ∧
    render (dictSetKey (get_devices s live fresh) fresh k ir) live = render s live ∧
    render (dictDelKey (get_devices s live fresh) fresh k) live = render s live := by
  simp [get_devices, dictSetKey, dictDelKey, render, dictGet_dictInsert_self,
    dictGet_dictInsert_ne _ _ hfresh]

theorem get_devices_snapshot_witness :
    (dictGet 1 (get_devices storeOne 0 1).topDicts).getD [] =
      (dictGet 0 storeOne.topDicts).getD [] ∧
    render (dictSetKey (get_devices storeOne 0 1) 1 "id2" 10) 0 = render storeOne 0 := by
  have h := get_devices_snapshot storeOne 0 1 "id2" 10 (by decide)
  exact ⟨h.1, h.2.2.1⟩

/-- C9 counterexample: the copy returned by `get_devices` shares the
per-device metadata dicts: the entry for "id1" in the copy is the same
reference 10 the live catalog holds, and mutating the name through it
changes what the live catalog renders — the live mapping content is
exposed to external mutation. -/
theorem get_devices_snapshot_cex :
    dictGet "id1" ((dictGet 1 (get_devices storeOne 0 1).topDicts).getD []) = some 10 ∧
    render (infoSetName (get_devices storeOne 0 1) 10 "Mut") 0 =
      [("id1", some ⟨"Mut", "light", "id1"⟩)] ∧
    render storeOne 0 = [("id1", some ⟨"Lamp", "light", "id1"⟩)] := by
  decide

end Hubspace
